import Mathlib

/-!
Shallow embedding of `silver_platter/apply.py` (`script_runner` and
`CommandResult`), together with theorems checking the specification's
claims about the script-execution-and-result-reconciliation protocol.

Modelling conventions:
* Revision identifiers (Python `bytes`) are modelled as `List Nat`
  (one entry per byte/code point); `str.encode('utf-8')` is modelled by
  the injective map sending each character to its code point.
* Python `dict`s (tag mappings, `context`) are association lists that
  keep insertion order, matching `dict.items()` iteration order.
* The interaction with the operating system and the versioned tree is
  captured by a `ScriptEnv` record fixing, for one run, everything the
  surrounding world answers: the child's exit status and captured
  stdout, the content found at the result path, the tree's revision ids
  and tag dictionaries before and after the child runs, and what the
  commit primitive does when invoked.  Side effects are recorded as a
  trace of `Event`s.
* `resume_metadata` is `some m` when the caller passed a truthy value.
-/

abbrev RevId := List Nat

/-- Model of `str.encode('utf-8')`: an injective map from strings to
byte-strings (code points stand in for the bytes). -/
def encodeUtf8 (s : String) : RevId :=
  s.data.map Char.toNat

/-- `dict.get(name)` on an insertion-ordered association list. -/
def lookupTag (d : List (String × RevId)) (n : String) : Option RevId :=
  (d.find? (fun p => p.1 == n)).map (fun p => p.2)

/-- Decoded JSON payload found at the result path (`SVP_RESULT`).
`tags = none` models the absence of the `tags` key; `tags = some l`
models a present (possibly empty) list of `(name, revid-text)` pairs. -/
structure Payload where
  description : Option String := none
  value : Option Int := none
  context : List (String × String) := []
  tags : Option (List (String × String)) := none
deriving Repr, DecidableEq

/-- `CommandResult` from apply.py.  The dataclass default gives
`tags = []` (an empty list, not `None`); `from_json` leaves `tags`
as `None` when the payload has no `tags` key. -/
structure CommandResult where
  description : Option String := none
  value : Option Int := none
  context : List (String × String) := []
  tags : Option (List (String × RevId)) := some []
  old_revision : Option RevId := none
  new_revision : Option RevId := none
deriving Repr, DecidableEq

/-- `CommandResult.from_json`: decode the payload mapping; a missing
`tags` key becomes `None`, a present one has each revision-id text
encoded to bytes. -/
def CommandResult.from_json (data : Payload) : CommandResult :=
  { value := data.value
    context := data.context
    description := data.description
    tags := data.tags.map (fun l => l.map (fun nr => (nr.1, encodeUtf8 nr.2))) }

/-- What `local_tree.commit(message, allow_pointless=False)` does when
invoked: either raises `PointlessCommit` or creates revision `rev`. -/
inductive CommitOutcome where
  | pointless
  | success (rev : RevId)
deriving Repr, DecidableEq

/-- Observable side effects of one run, in order. -/
inductive Event where
  | setEnvVar (name value : String)
  | writeFile (path content : String)
  | runScript (script : String) (cwd : String)
  | openResultFile
  | readLastRevision
  | readTagDict
  | commitAttempted (message : String)
  | tmpdirDeleted
deriving Repr, DecidableEq

/-- Exceptions that can escape `script_runner`.  `pointlessCommit`
is listed so that its (non-)propagation is statable; `typeError` is the
`TypeError` raised by `json.dump` on a non-serialisable object. -/
inductive RunError where
  | scriptFailed (script : String) (code : Int)
  | scriptMadeNoChanges
  | decodeError
  | typeError
  | pointlessCommit
deriving Repr, DecidableEq

deriving instance DecidableEq for Except

/-- Everything the environment answers during one run of
`script_runner`.  `resultFile = none` models `FileNotFoundError` at the
result path; `some (.error ())` a present but malformed file;
`some (.ok p)` a well-formed payload `p`. -/
structure ScriptEnv where
  script : String
  subpath : String := ""
  commitPending : Option Bool := none
  resumeMetadata : Option (List (String × String)) := none
  returncode : Int := 0
  stdout : String := ""
  resultFile : Option (Except Unit Payload) := none
  lastRevision : RevId := []
  revisionAfterScript : RevId := []
  origTags : List (String × RevId) := []
  tagsAfterScript : List (String × RevId) := []
  commitOutcome : CommitOutcome := .pointless
deriving Repr, DecidableEq

/-- The tag delta of lines 103-107: every `(name, revid)` of the
current tag dictionary whose revision differs from (or is absent in)
the pre-run tag dictionary, in current-dictionary order. -/
def tagDelta (e : ScriptEnv) : List (String × RevId) :=
  e.tagsAfterScript.filter (fun p => lookupTag e.origTags p.1 != some p.2)

/-- Lines 83-99, the body of `with tempfile.TemporaryDirectory()`:
set `SVP_RESULT`; if resume metadata was passed, set `SVP_RESUME`,
create the file and call `json.dump(f, resume_metadata)` — the
arguments are swapped, so `json.dump` tries to serialise the file
object and raises `TypeError` before writing anything; otherwise run
the child, classify its exit status, and read the result file. -/
def insideTmpdir (e : ScriptEnv) : Except RunError CommandResult × List Event :=
  let ev0 := [Event.setEnvVar "SVP_RESULT" "td/result.json"]
  match e.resumeMetadata with
  | some _ =>
      (.error .typeError,
        ev0 ++ [Event.setEnvVar "SVP_RESUME" "td/resume-metadata.json",
                Event.writeFile "td/resume-metadata.json" ""])
  | none =>
      let ev1 := ev0 ++ [Event.runScript e.script e.subpath]
      if e.returncode ≠ 0 then
        (.error (.scriptFailed e.script e.returncode), ev1)
      else
        let ev2 := ev1 ++ [Event.openResultFile]
        match e.resultFile with
        | none => (.ok {}, ev2)
        | some (.error _) => (.error .decodeError, ev2)
        | some (.ok payload) => (.ok (CommandResult.from_json payload), ev2)

/-- Line 100's truthiness test: `None` and `""` are falsy. -/
def descriptionFalsy (d : Option String) : Bool :=
  d.getD "" == ""

/-- The commit-pending value after line 108-111: forced on when the
script did not move the branch and the caller expressed no preference. -/
def commitPendingEffective (e : ScriptEnv) : Option Bool :=
  if e.lastRevision = e.revisionAfterScript ∧ e.commitPending = none then
    some true
  else e.commitPending

/-- `script_runner` (apply.py lines 64-121) over a fixed environment,
returning the result or escaping exception, plus the event trace. -/
def script_runner (e : ScriptEnv) : Except RunError CommandResult × List Event :=
  let pre := [Event.setEnvVar "SVP_API" "1", Event.readLastRevision,
              Event.readTagDict]
  let inner := insideTmpdir e
  let evs0 := pre ++ inner.2 ++ [Event.tmpdirDeleted]
  match inner.1 with
  | .error err => (.error err, evs0)
  | .ok r0 =>
      let r1 := if descriptionFalsy r0.description then
          { r0 with description := some e.stdout }
        else r0
      let evs1 := evs0 ++ [Event.readLastRevision]
      let new_revision := e.revisionAfterScript
      let r2 := if r1.tags.isNone then { r1 with tags := some (tagDelta e) }
        else r1
      let evs2 := if r1.tags.isNone then evs1 ++ [Event.readTagDict] else evs1
      let msg := r2.description.getD ""
      let attempted : Bool := commitPendingEffective e = some true
      let new_revision2 :=
        if attempted then
          match e.commitOutcome with
          | .success n => n
          | .pointless => new_revision
        else new_revision
      let evs3 := if attempted then evs2 ++ [Event.commitAttempted msg]
        else evs2
      if new_revision2 = e.lastRevision then
        (.error .scriptMadeNoChanges, evs3)
      else
        (.ok { r2 with
                 old_revision := some e.lastRevision
                 new_revision := some new_revision2 },
         evs3 ++ [Event.readLastRevision])

/-- The tree's revision id immediately after the optional commit step
(the commit, when attempted and successful, moves the branch head). -/
def finalRevision (e : ScriptEnv) : RevId :=
  if commitPendingEffective e = some true then
    match e.commitOutcome with
    | .success n => n
    | .pointless => e.revisionAfterScript
  else e.revisionAfterScript

/-- A run gets as far as the reconciliation stage when the resume-dump
bug is not triggered, the child exits zero and the result file (when
present) decodes. -/
def reachesReconciliation (e : ScriptEnv) : Prop :=
  e.resumeMetadata = none ∧ e.returncode = 0 ∧ e.resultFile ≠ some (.error ())

/-- The result decoded from the side channel (before reconciliation),
lines 95-99: a default `CommandResult` when the file is missing. -/
def decodedResult (e : ScriptEnv) : CommandResult :=
  match e.resultFile with
  | none => {}
  | some (.ok p) => CommandResult.from_json p
  | some (.error _) => {}

/-- The description after the line-100 stdout fallback. -/
def effectiveDescription (e : ScriptEnv) : String :=
  if descriptionFalsy (decodedResult e).description then e.stdout
  else (decodedResult e).description.getD ""

/-- The reconciled result before revision stamping, parameterised by
the revision id stamped as `new_revision`. -/
def reconciledCore (e : ScriptEnv) (fr : RevId) : CommandResult :=
  let r0 := decodedResult e
  let r1 := if descriptionFalsy r0.description then
      { r0 with description := some e.stdout }
    else r0
  let r2 := if r1.tags.isNone then { r1 with tags := some (tagDelta e) }
    else r1
  { r2 with
      old_revision := some e.lastRevision
      new_revision := some fr }

/-- The result a reconciliation-reaching run returns when the final
revision differs from the pre-run one: decoded payload, stdout
fallback for the description, tag delta when the payload had no tags
key, and the revision stamps. -/
def reconciledResult (e : ScriptEnv) : CommandResult :=
  reconciledCore e (finalRevision e)

/-- The event trace of a reconciliation-reaching run. -/
def runTrace (e : ScriptEnv) : List Event :=
  [Event.setEnvVar "SVP_API" "1", Event.readLastRevision,
   Event.readTagDict, Event.setEnvVar "SVP_RESULT" "td/result.json",
   Event.runScript e.script e.subpath, Event.openResultFile,
   Event.tmpdirDeleted, Event.readLastRevision]
  ++ (if (decodedResult e).tags.isNone then [Event.readTagDict] else [])
  ++ (if commitPendingEffective e = some true then
        [Event.commitAttempted (effectiveDescription e)] else [])
  ++ (if finalRevision e = e.lastRevision then []
      else [Event.readLastRevision])

/-- A run whose script leaves a fresh revision and whose caller forbids
committing: returns normally. -/
def envSuccess : ScriptEnv :=
  { script := "sc", stdout := "out", lastRevision := [0],
    revisionAfterScript := [1], commitPending := some false }

/-- A run in which neither the script nor the forced commit moves the
branch head. -/
def envNoChange : ScriptEnv :=
  { script := "sc", lastRevision := [0], revisionAfterScript := [0],
    commitOutcome := .pointless }

/-- Auto-commit scenario: the script leaves uncommitted edits, writes
a description, and the forced commit creates revision `[2]`. -/
def envAuto : ScriptEnv :=
  { script := "sc", stdout := "out", lastRevision := [0],
    revisionAfterScript := [0],
    resultFile := some (.ok { description := some "Fix typo", tags := some [] }),
    commitOutcome := .success [2] }

/-- Forced commit requested but the commit primitive finds nothing to
commit. -/
def envPointless : ScriptEnv :=
  { script := "sc", lastRevision := [0], revisionAfterScript := [1],
    commitPending := some true, commitOutcome := .pointless }

/-- A child process exiting with status 3. -/
def envFail : ScriptEnv :=
  { script := "script.sh", returncode := 3 }

/-- A run invoked with resume metadata. -/
def envResume : ScriptEnv :=
  { script := "sc", resumeMetadata := some [("base", "abc")] }

/-- A payload without a `tags` key. -/
def payloadTags : Payload := { description := some "d" }

/-- A run whose payload has no `tags` key while the tag dictionary
gained `new`, lost `old` and kept `keep`. -/
def envTags : ScriptEnv :=
  { script := "sc", lastRevision := [0], revisionAfterScript := [1],
    commitPending := some false, resultFile := some (.ok payloadTags),
    origTags := [("keep", [5]), ("old", [6])],
    tagsAfterScript := [("keep", [5]), ("new", [7])] }

/-- A run with no result file while the tag dictionary gained `v1`. -/
def envDelta : ScriptEnv :=
  { script := "sc", lastRevision := [0], revisionAfterScript := [1],
    commitPending := some false, origTags := [],
    tagsAfterScript := [("v1", [1])] }

/-- The result `script_runner` returns on `envTags`. -/
def resTags : CommandResult :=
  { description := some "d", value := none, context := [],
    tags := some [("new", [7])], old_revision := some [0],
    new_revision := some [1] }

/-- The result `script_runner` returns on `envDelta`. -/
def resDelta : CommandResult :=
  { description := some "", value := none, context := [], tags := some [],
    old_revision := some [0], new_revision := some [1] }

lemma insideTmpdir_reaches (e : ScriptEnv) (h : reachesReconciliation e) :
    insideTmpdir e =
      (.ok (decodedResult e),
       [Event.setEnvVar "SVP_RESULT" "td/result.json",
        Event.runScript e.script e.subpath, Event.openResultFile]) := by
  obtain ⟨h1, h2, h3⟩ := h
  rcases hrf : e.resultFile with _ | (u | p)
  · simp [insideTmpdir, decodedResult, h1, h2, hrf]
  · cases u
    exact absurd hrf h3
  · simp [insideTmpdir, decodedResult, h1, h2, hrf]

lemma script_runner_reaches (e : ScriptEnv) (h : reachesReconciliation e) :
    script_runner e =
      ((if finalRevision e = e.lastRevision then
          Except.error RunError.scriptMadeNoChanges
        else Except.ok (reconciledResult e)),
       runTrace e) := by
  simp only [script_runner, insideTmpdir_reaches e h, runTrace,
    reconciledResult, reconciledCore, finalRevision, effectiveDescription]
  split_ifs <;> simp_all [descriptionFalsy]

lemma script_runner_resume (e : ScriptEnv) (m : List (String × String))
    (hm : e.resumeMetadata = some m) :
    script_runner e =
      (.error .typeError,
       [Event.setEnvVar "SVP_API" "1", Event.readLastRevision,
        Event.readTagDict, Event.setEnvVar "SVP_RESULT" "td/result.json",
        Event.setEnvVar "SVP_RESUME" "td/resume-metadata.json",
        Event.writeFile "td/resume-metadata.json" "",
        Event.tmpdirDeleted]) := by
  simp [script_runner, insideTmpdir, hm]

lemma script_runner_nonzero (e : ScriptEnv) (hm : e.resumeMetadata = none)
    (hc : e.returncode ≠ 0) :
    script_runner e =
      (.error (.scriptFailed e.script e.returncode),
       [Event.setEnvVar "SVP_API" "1", Event.readLastRevision,
        Event.readTagDict, Event.setEnvVar "SVP_RESULT" "td/result.json",
        Event.runScript e.script e.subpath, Event.tmpdirDeleted]) := by
  simp [script_runner, insideTmpdir, hm, hc]

lemma script_runner_malformed (e : ScriptEnv) (hm : e.resumeMetadata = none)
    (hc : e.returncode = 0) (hf : e.resultFile = some (.error ())) :
    script_runner e =
      (.error .decodeError,
       [Event.setEnvVar "SVP_API" "1", Event.readLastRevision,
        Event.readTagDict, Event.setEnvVar "SVP_RESULT" "td/result.json",
        Event.runScript e.script e.subpath, Event.openResultFile,
        Event.tmpdirDeleted]) := by
  simp [script_runner, insideTmpdir, hm, hc, hf]

lemma reconciledResult_old_revision (e : ScriptEnv) :
    (reconciledResult e).old_revision = some e.lastRevision := rfl

lemma reconciledResult_new_revision (e : ScriptEnv) :
    (reconciledResult e).new_revision = some (finalRevision e) := rfl

lemma reconciledResult_description (e : ScriptEnv) :
    (reconciledResult e).description = some (effectiveDescription e) := by
  unfold reconciledResult reconciledCore effectiveDescription
  rcases hd : (decodedResult e).description with _ | s
  · simp [descriptionFalsy, hd]
    split <;> rfl
  · by_cases hs : descriptionFalsy (some s) = true
    · simp [hs, hd]
      split <;> rfl
    · simp [hd, hs]
      split <;> simp [hd]

lemma reconciledResult_tags (e : ScriptEnv) :
    (reconciledResult e).tags =
      (if (decodedResult e).tags.isNone then some (tagDelta e)
       else (decodedResult e).tags) := by
  unfold reconciledResult reconciledCore
  by_cases hc : descriptionFalsy (decodedResult e).description = true <;>
    rcases ht : (decodedResult e).tags with _ | l <;>
      simp [hc, ht]

lemma finalRevision_pointless (e : ScriptEnv)
    (hp : e.commitOutcome = .pointless) :
    finalRevision e = e.revisionAfterScript := by
  unfold finalRevision
  rw [hp]
  split <;> rfl

lemma commitPendingEffective_commitFalse (e : ScriptEnv) :
    commitPendingEffective { e with commitPending := some false } =
      some false := by
  unfold commitPendingEffective
  rw [if_neg]
  rintro ⟨-, h⟩
  exact Option.noConfusion h

lemma finalRevision_commitFalse (e : ScriptEnv) :
    finalRevision { e with commitPending := some false } =
      e.revisionAfterScript := by
  unfold finalRevision
  rw [commitPendingEffective_commitFalse, if_neg]
  intro h
  exact Bool.noConfusion (Option.some.inj h)

/-- The exception/result value of a run, summarising the case analysis
on the environment. -/
def runValue (e : ScriptEnv) : Except RunError CommandResult :=
  match e.resumeMetadata with
  | some _ => .error .typeError
  | none =>
      if e.returncode ≠ 0 then .error (.scriptFailed e.script e.returncode)
      else
        match e.resultFile with
        | some (.error _) => .error .decodeError
        | _ =>
            if finalRevision e = e.lastRevision then
              .error .scriptMadeNoChanges
            else .ok (reconciledResult e)

lemma script_runner_fst (e : ScriptEnv) : (script_runner e).1 = runValue e := by
  rcases hm : e.resumeMetadata with _ | m
  · by_cases hc : e.returncode = 0
    · rcases hrf : e.resultFile with _ | (u | p)
      · rw [script_runner_reaches e ⟨hm, hc, by simp [hrf]⟩]
        simp [runValue, hm, hc, hrf]
      · cases u
        rw [script_runner_malformed e hm hc hrf]
        simp [runValue, hm, hc, hrf]
      · rw [script_runner_reaches e ⟨hm, hc, by simp [hrf]⟩]
        simp [runValue, hm, hc, hrf]
    · rw [script_runner_nonzero e hm hc]
      simp [runValue, hm, hc]
  · rw [script_runner_resume e m hm]
    simp [runValue, hm]

lemma runValue_ok (e : ScriptEnv) (r : CommandResult)
    (h : runValue e = .ok r) :
    r = reconciledResult e ∧ finalRevision e ≠ e.lastRevision ∧
      reachesReconciliation e := by
  unfold runValue at h
  rcases hm : e.resumeMetadata with _ | m <;> rw [hm] at h
  · by_cases hc : e.returncode = 0
    · rcases hrf : e.resultFile with _ | (u | p) <;> rw [hrf] at h
      · by_cases hfin : finalRevision e = e.lastRevision <;>
          simp [hc, hfin] at h
        exact ⟨h.symm, hfin, hm, hc, by simp [hrf]⟩
      · cases u
        simp [hc] at h
      · by_cases hfin : finalRevision e = e.lastRevision <;>
          simp [hc, hfin] at h
        exact ⟨h.symm, hfin, hm, hc, by simp [hrf]⟩
    · simp [hc] at h
  · simp at h

/-- C1: every normal return of `script_runner` carries
`old_revision ≠ new_revision`; and when a reconciliation-reaching run
ends with the tree's revision id after the optional commit still equal
to the pre-run revision id, it raises `ScriptMadeNoChanges` instead of
returning a result. -/
theorem c1_no_changes_invariant (e : ScriptEnv) :
    (∀ r, (script_runner e).1 = .ok r →
      r.old_revision ≠ r.new_revision) ∧
    (reachesReconciliation e → finalRevision e = e.lastRevision →
      (script_runner e).1 = .error .scriptMadeNoChanges) := by
  constructor
  · intro r hr
    rw [script_runner_fst] at hr
    obtain ⟨hre, hfin, -⟩ := runValue_ok e r hr
    subst hre
    rw [reconciledResult_old_revision, reconciledResult_new_revision]
    intro hcon
    exact hfin (Option.some.inj hcon).symm
  · intro h hfin
    rw [script_runner_reaches e h]
    simp [hfin]

/-- C1 witness: `envDelta` returns normally with distinct revisions and
`envNoChange` raises `ScriptMadeNoChanges`. -/
theorem c1_no_changes_invariant_witness :
    resDelta.old_revision ≠ resDelta.new_revision ∧
    (script_runner envNoChange).1 = .error .scriptMadeNoChanges :=
  ⟨(c1_no_changes_invariant envDelta).1 resDelta (by decide),
   (c1_no_changes_invariant envNoChange).2 ⟨rfl, rfl, by decide⟩ (by decide)⟩

/-- C2: when the child exits with a non-zero status, the run raises
`ScriptFailed` carrying exactly the command string and the exit code;
no commit is attempted and the tree's revision id and tag dictionary
are read only once (the pre-run snapshot), so no before/after state
comparison happens. -/
theorem c2_nonzero_exit_script_failed (e : ScriptEnv)
    (hm : e.resumeMetadata = none) (hc : e.returncode ≠ 0) :
    (script_runner e).1 = .error (.scriptFailed e.script e.returncode) ∧
    (∀ m, Event.commitAttempted m ∉ (script_runner e).2) ∧
    (script_runner e).2.count Event.readLastRevision = 1 ∧
    (script_runner e).2.count Event.readTagDict = 1 := by
  rw [script_runner_nonzero e hm hc]
  refine ⟨rfl, ?_, ?_, ?_⟩ <;> simp [List.count_cons]

/-- C2 witness: the concrete failing run `envFail`. -/
theorem c2_nonzero_exit_script_failed_witness :
    (script_runner envFail).1 = .error (.scriptFailed "script.sh" 3) ∧
    (∀ m, Event.commitAttempted m ∉ (script_runner envFail).2) ∧
    (script_runner envFail).2.count Event.readLastRevision = 1 ∧
    (script_runner envFail).2.count Event.readTagDict = 1 :=
  c2_nonzero_exit_script_failed envFail rfl (by decide)

/-- C9: the ephemeral side-channel directory is deleted on every exit
path of the side-channel scope: the deletion event is in the trace of
every run, whatever the environment did. -/
theorem c9_tmpdir_always_deleted (e : ScriptEnv) :
    Event.tmpdirDeleted ∈ (script_runner e).2 := by
  rcases hm : e.resumeMetadata with _ | m
  · by_cases hc : e.returncode = 0
    · rcases hrf : e.resultFile with _ | (u | p)
      · rw [script_runner_reaches e ⟨hm, hc, by simp [hrf]⟩]
        simp [runTrace]
      · cases u
        rw [script_runner_malformed e hm hc hrf]
        simp
      · rw [script_runner_reaches e ⟨hm, hc, by simp [hrf]⟩]
        simp [runTrace]
    · rw [script_runner_nonzero e hm hc]
      simp
  · rw [script_runner_resume e m hm]
    simp

/-- C10: when the child exits non-zero, `ScriptFailed` is raised before
the result file is ever opened: no open event is in the trace, so a
payload written by the failing script can have no effect. -/
theorem c10_failed_never_opens_result (e : ScriptEnv)
    (hm : e.resumeMetadata = none) (hc : e.returncode ≠ 0) :
    (script_runner e).1 = .error (.scriptFailed e.script e.returncode) ∧
    Event.openResultFile ∉ (script_runner e).2 := by
  rw [script_runner_nonzero e hm hc]
  exact ⟨rfl, by simp⟩

/-- C10 witness: the concrete failing run `envFail` never opens the
result file. -/
theorem c10_failed_never_opens_result_witness :
    (script_runner envFail).1 = .error (.scriptFailed "script.sh" 3) ∧
    Event.openResultFile ∉ (script_runner envFail).2 :=
  c10_failed_never_opens_result envFail rfl (by decide)

/-- C3: when the child exits zero and the decoded payload has no
`tags` key, the returned result's tags are exactly the pairs
`(n, after[n])` for the names `n` of the after tag dictionary with
`after[n] != before.get(n)`, in after-dictionary order (`tagDelta`,
which never reports a deleted tag since it only draws from the after
dictionary); when the payload supplies an explicit empty tag list, the
tags stay that empty list and the tag dictionary is not read a second
time. -/
theorem c3_tag_delta_when_tags_key_absent (e : ScriptEnv) (p : Payload)
    (h : reachesReconciliation e) (hp : e.resultFile = some (.ok p))
    (r : CommandResult) (hr : (script_runner e).1 = .ok r) :
    (p.tags = none → r.tags = some (tagDelta e)) ∧
    (p.tags = some [] → r.tags = some [] ∧
      (script_runner e).2.count Event.readTagDict = 1) := by
  rw [script_runner_fst] at hr
  obtain ⟨hre, hfin, -⟩ := runValue_ok e r hr
  subst hre
  constructor
  · intro hpt
    rw [reconciledResult_tags]
    simp [decodedResult, hp, CommandResult.from_json, hpt]
  · intro hpt
    have hdt : (decodedResult e).tags = some [] := by
      simp [decodedResult, hp, CommandResult.from_json, hpt]
    constructor
    · rw [reconciledResult_tags]
      simp [hdt]
    · rw [script_runner_reaches e h]
      by_cases h1 : commitPendingEffective e = some true <;>
        by_cases h2 : finalRevision e = e.lastRevision <;>
          simp [runTrace, hdt, h1, h2, List.count_append, List.count_cons]

/-- C3 witness: `envTags` (payload without a `tags` key, tag `new`
added, tag `old` deleted, tag `keep` unchanged) yields exactly the
delta `[("new", [7])]`. -/
theorem c3_tag_delta_when_tags_key_absent_witness :
    resTags.tags = some (tagDelta envTags) ∧
    tagDelta envTags = [("new", [7])] :=
  ⟨(c3_tag_delta_when_tags_key_absent envTags payloadTags
      ⟨rfl, rfl, by decide⟩ rfl resTags (by decide)).1 rfl,
   by decide⟩

/-- C4 (amended): when the child exits zero and no result file exists,
the tag delta is NOT computed: the returned result keeps the dataclass
default, the empty tag list. -/
theorem c4_missing_file_tags_stay_empty (e : ScriptEnv)
    (h : reachesReconciliation e) (hf : e.resultFile = none)
    (r : CommandResult) (hr : (script_runner e).1 = .ok r) :
    r.tags = some [] := by
  rw [script_runner_fst] at hr
  obtain ⟨hre, -, -⟩ := runValue_ok e r hr
  subst hre
  rw [reconciledResult_tags]
  simp [decodedResult, hf]

/-- C4 counterexample: on `envDelta` (no result file, tag `v1` newly
appeared) the run returns tags `[]`, not the delta `[("v1", [1])]` the
claim asserts. -/
theorem c4_counterexample_delta_not_computed :
    (script_runner envDelta).1 = .ok resDelta ∧
    resDelta.tags = some [] ∧
    tagDelta envDelta = [("v1", [1])] ∧
    resDelta.tags ≠ some (tagDelta envDelta) :=
  ⟨by decide, by decide, by decide, by decide⟩

/-- C4 witness (amended claim): the concrete run `envDelta`. -/
theorem c4_missing_file_tags_stay_empty_witness :
    resDelta.tags = some ([] : List (String × RevId)) :=
  c4_missing_file_tags_stay_empty envDelta ⟨rfl, rfl, by decide⟩ rfl
    resDelta (by decide)

/-- C5: when the child exits zero and no result file exists, decoding
is never an error: the run either returns the default result whose
description is the child's captured standard output, or raises the
no-changes failure. -/
theorem c5_missing_file_description_fallback (e : ScriptEnv)
    (h : reachesReconciliation e) (hf : e.resultFile = none) :
    (script_runner e).1 ≠ .error .decodeError ∧
    ((script_runner e).1 = .error .scriptMadeNoChanges ∨
      ((script_runner e).1 = .ok (reconciledResult e) ∧
        (reconciledResult e).description = some e.stdout)) := by
  have hd : (reconciledResult e).description = some e.stdout := by
    rw [reconciledResult_description]
    simp [effectiveDescription, decodedResult, hf, descriptionFalsy]
  rw [script_runner_reaches e h]
  by_cases hfin : finalRevision e = e.lastRevision
  · simp [hfin]
  · simp [hfin, hd]

/-- C5 witness: `envSuccess` (no result file, stdout `"out"`). -/
theorem c5_missing_file_description_fallback_witness :
    (script_runner envSuccess).1 ≠ .error .decodeError ∧
    ((script_runner envSuccess).1 = .error .scriptMadeNoChanges ∨
      ((script_runner envSuccess).1 = .ok (reconciledResult envSuccess) ∧
        (reconciledResult envSuccess).description =
          some envSuccess.stdout)) :=
  c5_missing_file_description_fallback envSuccess ⟨rfl, rfl, by decide⟩ rfl

/-- C6: when the script left the branch head unmoved and the caller
passed no commit-pending preference, the commit-pending branch is
forced on and a commit is attempted with the result's description as
the message. -/
theorem c6_auto_commit_forced (e : ScriptEnv)
    (h : reachesReconciliation e)
    (heq : e.revisionAfterScript = e.lastRevision)
    (hcp : e.commitPending = none) :
    commitPendingEffective e = some true ∧
    Event.commitAttempted (effectiveDescription e) ∈ (script_runner e).2 := by
  have hcpe : commitPendingEffective e = some true := by
    simp [commitPendingEffective, heq, hcp]
  refine ⟨hcpe, ?_⟩
  rw [script_runner_reaches e h]
  simp [runTrace, hcpe]

/-- C6 witness: `envAuto` (script exits 0, writes description
`"Fix typo"`, branch head unmoved, no commit-pending preference)
commits with message `"Fix typo"`. -/
theorem c6_auto_commit_forced_witness :
    (commitPendingEffective envAuto = some true ∧
      Event.commitAttempted (effectiveDescription envAuto) ∈
        (script_runner envAuto).2) ∧
    effectiveDescription envAuto = "Fix typo" :=
  ⟨c6_auto_commit_forced envAuto ⟨rfl, rfl, by decide⟩ rfl rfl, by decide⟩

lemma runValue_ne_pointless (e : ScriptEnv) :
    runValue e ≠ .error .pointlessCommit := by
  intro h
  unfold runValue at h
  rcases hm : e.resumeMetadata with _ | m <;> rw [hm] at h
  · rcases hrf : e.resultFile with _ | (u | p) <;> rw [hrf] at h <;>
      split_ifs at h <;> simp_all
  · simp at h

/-- C7: when the commit primitive raises `PointlessCommit`, the
exception is absorbed inside the commit step — it never escapes
`script_runner` — and the run's outcome is the same as if no commit
had been attempted (no revision produced by the commit step). -/
theorem c7_pointless_commit_absorbed (e : ScriptEnv)
    (hp : e.commitOutcome = .pointless) :
    (script_runner e).1 ≠ .error .pointlessCommit ∧
    (script_runner e).1 =
      (script_runner { e with commitPending := some false }).1 := by
  constructor
  · rw [script_runner_fst]
    exact runValue_ne_pointless e
  · rw [script_runner_fst, script_runner_fst]
    have hrr : reconciledResult { e with commitPending := some false } =
        reconciledResult e := by
      unfold reconciledResult
      rw [finalRevision_commitFalse, finalRevision_pointless e hp]
      rfl
    unfold runValue
    dsimp only
    rw [finalRevision_commitFalse, finalRevision_pointless e hp, hrr]

/-- C7 witness: `envPointless` (commit requested, nothing to commit)
returns the same value as the never-commit variant. -/
theorem c7_pointless_commit_absorbed_witness :
    (script_runner envPointless).1 ≠ .error .pointlessCommit ∧
    (script_runner envPointless).1 =
      (script_runner { envPointless with commitPending := some false }).1 :=
  c7_pointless_commit_absorbed envPointless rfl

/-- C8 (code bug): with resume metadata supplied, the code sets
`SVP_RESUME` and creates the file, but `json.dump(f, resume_metadata)`
has its arguments swapped, so the run crashes with `TypeError` before
the metadata document is written and before the child is ever
launched — the claimed behaviour (metadata written as a structured
document, then script run) never happens. -/
theorem c8_resume_metadata_dump_crashes (e : ScriptEnv)
    (m : List (String × String)) (hm : e.resumeMetadata = some m) :
    (script_runner e).1 = .error .typeError ∧
    Event.setEnvVar "SVP_RESUME" "td/resume-metadata.json" ∈
      (script_runner e).2 ∧
    Event.writeFile "td/resume-metadata.json" "" ∈ (script_runner e).2 ∧
    (∀ s c, Event.runScript s c ∉ (script_runner e).2) := by
  rw [script_runner_resume e m hm]
  refine ⟨rfl, by simp, by simp, ?_⟩
  intro s c
  simp

/-- C8 witness: the concrete resuming run `envResume`. -/
theorem c8_resume_metadata_dump_crashes_witness :
    (script_runner envResume).1 = .error .typeError ∧
    Event.setEnvVar "SVP_RESUME" "td/resume-metadata.json" ∈
      (script_runner envResume).2 ∧
    Event.writeFile "td/resume-metadata.json" "" ∈ (script_runner envResume).2 ∧
    (∀ s c, Event.runScript s c ∉ (script_runner envResume).2) :=
  c8_resume_metadata_dump_crashes envResume [("base", "abc")] rfl
